import Mathlib

/-!
Verification of the hudey campaign-orchestration core.

Shallow embedding of:
* `src/models/context.py` — `CampaignState`, `CampaignContext.update`,
  `_advance_after_approval`, `_handle_rejection`;
* `src/agent/hudey_agent.py` — `HudeyAgent.reason`;
* `src/backend/db/repositories/job_repo.py` — the durable job queue
  (`enqueue`, `claim_next`, `complete`, `fail`, `recover_stale_jobs`);
* `src/backend/worker.py` — the worker's job-failure path;
* `src/services/response_router.py` — `ingest_response`;
* `src/backend/api/routes/webhooks.py` — the inbound-reply webhook
  (dedup-key computation and handler state transitions);
* `src/backend/api/routes/approvals.py` — `creator_response_webhook`.

Database tables are modelled as association lists; Python dictionaries as
association lists preserving insertion order; raised exceptions as `Option`
results (`none` = exception); Python string truthiness (`if s:`) explicitly,
since the empty string is falsy.
-/

namespace Hudey

/-! ## Campaign workflow states — `models/context.py` `CampaignState` -/

/-- The thirteen workflow states of `CampaignState` in `models/context.py`,
in declaration order. -/
inductive CampaignState where
  | BRIEF_RECEIVED
  | STRATEGY_DRAFT
  | AWAITING_BRIEF_APPROVAL
  | CREATOR_DISCOVERY
  | AWAITING_CREATOR_APPROVAL
  | OUTREACH_DRAFT
  | AWAITING_OUTREACH_APPROVAL
  | OUTREACH_IN_PROG
  | NEGOTIATION
  | AWAITING_TERMS_APPROVAL
  | PAYMENT_PENDING
  | CAMPAIGN_ACTIVE
  | COMPLETED
  deriving DecidableEq, Repr

/-- The string value of each state (the Python enum is a `str` enum). -/
def CampaignState.value : CampaignState → String
  | .BRIEF_RECEIVED => "brief_received"
  | .STRATEGY_DRAFT => "strategy_draft"
  | .AWAITING_BRIEF_APPROVAL => "awaiting_brief_approval"
  | .CREATOR_DISCOVERY => "creator_discovery"
  | .AWAITING_CREATOR_APPROVAL => "awaiting_creator_approval"
  | .OUTREACH_DRAFT => "outreach_draft"
  | .AWAITING_OUTREACH_APPROVAL => "awaiting_outreach_approval"
  | .OUTREACH_IN_PROG => "outreach_in_prog"
  | .NEGOTIATION => "negotiation"
  | .AWAITING_TERMS_APPROVAL => "awaiting_terms_approval"
  | .PAYMENT_PENDING => "payment_pending"
  | .CAMPAIGN_ACTIVE => "campaign_active"
  | .COMPLETED => "completed"

/-- Position of a state in the linear workflow (enum declaration order);
used to express "earlier/later state". -/
def CampaignState.idx : CampaignState → Nat
  | .BRIEF_RECEIVED => 0
  | .STRATEGY_DRAFT => 1
  | .AWAITING_BRIEF_APPROVAL => 2
  | .CREATOR_DISCOVERY => 3
  | .AWAITING_CREATOR_APPROVAL => 4
  | .OUTREACH_DRAFT => 5
  | .AWAITING_OUTREACH_APPROVAL => 6
  | .OUTREACH_IN_PROG => 7
  | .NEGOTIATION => 8
  | .AWAITING_TERMS_APPROVAL => 9
  | .PAYMENT_PENDING => 10
  | .CAMPAIGN_ACTIVE => 11
  | .COMPLETED => 12

/-- `CampaignState(s)` on a string: succeeds exactly on the thirteen enum
values, otherwise the Python constructor raises `ValueError` (`none`). -/
def campaignStateOfString (s : String) : Option CampaignState :=
  if s = "brief_received" then some .BRIEF_RECEIVED
  else if s = "strategy_draft" then some .STRATEGY_DRAFT
  else if s = "awaiting_brief_approval" then some .AWAITING_BRIEF_APPROVAL
  else if s = "creator_discovery" then some .CREATOR_DISCOVERY
  else if s = "awaiting_creator_approval" then some .AWAITING_CREATOR_APPROVAL
  else if s = "outreach_draft" then some .OUTREACH_DRAFT
  else if s = "awaiting_outreach_approval" then some .AWAITING_OUTREACH_APPROVAL
  else if s = "outreach_in_prog" then some .OUTREACH_IN_PROG
  else if s = "negotiation" then some .NEGOTIATION
  else if s = "awaiting_terms_approval" then some .AWAITING_TERMS_APPROVAL
  else if s = "payment_pending" then some .PAYMENT_PENDING
  else if s = "campaign_active" then some .CAMPAIGN_ACTIVE
  else if s = "completed" then some .COMPLETED
  else none

/-! ## Engagement model — `models/campaign.py` -/

/-- `EngagementStatus` from `models/campaign.py`. -/
inductive EngagementStatus where
  | CONTACTED
  | RESPONDED
  | NEGOTIATING
  | AGREED
  | DECLINED
  deriving DecidableEq, Repr

/-- String value of each engagement status. -/
def EngagementStatus.value : EngagementStatus → String
  | .CONTACTED => "contacted"
  | .RESPONDED => "responded"
  | .NEGOTIATING => "negotiating"
  | .AGREED => "agreed"
  | .DECLINED => "declined"

/-- `EngagementStatus(s)` on a string; `none` models the raised
`ValueError` on a string outside the enum. -/
def engagementStatusOfString (s : String) : Option EngagementStatus :=
  if s = "contacted" then some .CONTACTED
  else if s = "responded" then some .RESPONDED
  else if s = "negotiating" then some .NEGOTIATING
  else if s = "agreed" then some .AGREED
  else if s = "declined" then some .DECLINED
  else none

/-- One message in an engagement's `message_history`
(keys `from`, `body`, `timestamp`). -/
structure MsgEntry where
  sender : String
  body : String
  timestamp : String
  deriving DecidableEq, Repr

/-- `CreatorEngagement` from `models/campaign.py`. Opaque JSON payloads
(`latest_proposal`, `terms`) are carried as strings. -/
structure CreatorEngagement where
  creator_id : String
  status : EngagementStatus
  latest_proposal : Option String
  terms : Option String
  message_history : List MsgEntry
  response_timestamp : Option String
  notes : Option String
  deriving DecidableEq, Repr

/-! ## Tool results — `models/actions.py` -/

/-- The dictionary keys probed by `CampaignContext.update` on
`result.output`. A `some` field models the key being present in the dict;
opaque JSON payload values are carried as strings. -/
structure ToolOutput where
  strategy : Option String := none
  creators : Option (List String) := none
  creator_criteria : Option String := none
  outreach_drafts : Option (List String) := none
  outreach_sent : Option String := none
  engagements : Option (List (String × CreatorEngagement)) := none
  counter_offer : Option String := none
  creator_id : Option String := none
  payment_instructions : Option String := none
  monitor_updates : Option (List String) := none
  report : Option String := none
  approval_granted : Option Bool := none
  feedback : Option String := none
  state : Option String := none
  complete : Option Bool := none
  deriving DecidableEq, Repr

/-- `ToolResult` from `models/actions.py`: `success`, optional `output`
dict, optional `error` string. -/
structure ToolResult where
  success : Bool
  output : Option ToolOutput := none
  error : Option String := none
  deriving DecidableEq, Repr

/-- The keys present in an output dict, in the probe order of
`CampaignContext.update` (Python dict key order depends on the producer;
only membership is relied on downstream). -/
def ToolOutput.presentKeys (o : ToolOutput) : List String :=
  (if o.strategy.isSome then ["strategy"] else [])
  ++ (if o.creators.isSome then ["creators"] else [])
  ++ (if o.creator_criteria.isSome then ["creator_criteria"] else [])
  ++ (if o.outreach_drafts.isSome then ["outreach_drafts"] else [])
  ++ (if o.outreach_sent.isSome then ["outreach_sent"] else [])
  ++ (if o.engagements.isSome then ["engagements"] else [])
  ++ (if o.counter_offer.isSome then ["counter_offer"] else [])
  ++ (if o.creator_id.isSome then ["creator_id"] else [])
  ++ (if o.payment_instructions.isSome then ["payment_instructions"] else [])
  ++ (if o.monitor_updates.isSome then ["monitor_updates"] else [])
  ++ (if o.report.isSome then ["report"] else [])
  ++ (if o.approval_granted.isSome then ["approval_granted"] else [])
  ++ (if o.feedback.isSome then ["feedback"] else [])
  ++ (if o.state.isSome then ["state"] else [])
  ++ (if o.complete.isSome then ["complete"] else [])

/-! ## Campaign context — `models/context.py` `CampaignContext` -/

/-- One entry of `CampaignContext.history`: either the
`{"state": ..., "output_keys": ...}` record appended at the end of
`update`, or the `{"rejection_feedback": ...}` record appended by
`_handle_rejection`. -/
inductive HistEntry where
  | step (state : CampaignState) (output_keys : List String)
  | rejection_feedback (feedback : String)
  deriving DecidableEq, Repr

/-- `CampaignContext` from `models/context.py`. Opaque JSON payloads are
carried as strings; `engagements` is an insertion-ordered association
list mirroring the Python dict. -/
structure CampaignContext where
  campaign_id : String := ""
  brief : Option String := none
  strategy : Option String := none
  creators : List String := []
  creator_criteria : Option String := none
  outreach_drafts : List String := []
  outreach_sent : Option String := none
  engagements : List (String × CreatorEngagement) := []
  pending_counter_offer : Option String := none
  pending_creator_id : Option String := none
  monitor_updates : List String := []
  report : Option String := none
  state : CampaignState := .BRIEF_RECEIVED
  approval_queue : List String := []
  history : List HistEntry := []
  deriving DecidableEq, Repr

/-- `_advance_after_approval`: the fixed forward table keyed on the
current state; unmapped states stay put (`transitions.get(state, state)`). -/
def advanceAfterApproval : CampaignState → CampaignState
  | .AWAITING_BRIEF_APPROVAL => .CREATOR_DISCOVERY
  | .AWAITING_CREATOR_APPROVAL => .OUTREACH_DRAFT
  | .AWAITING_OUTREACH_APPROVAL => .OUTREACH_IN_PROG
  | .AWAITING_TERMS_APPROVAL => .PAYMENT_PENDING
  | s => s

/-- `_handle_rejection`'s revert table: unmapped states stay put
(`revert.get(state, state)`). -/
def revertOnRejection : CampaignState → CampaignState
  | .AWAITING_BRIEF_APPROVAL => .STRATEGY_DRAFT
  | .AWAITING_CREATOR_APPROVAL => .CREATOR_DISCOVERY
  | .AWAITING_OUTREACH_APPROVAL => .OUTREACH_DRAFT
  | .AWAITING_TERMS_APPROVAL => .NEGOTIATION
  | s => s

/-- `CampaignContext._handle_rejection`: revert the state via the table;
append the feedback record to history when `feedback` is truthy. -/
def CampaignContext.handleRejection (c : CampaignContext) (feedback : String) :
    CampaignContext :=
  let c1 := { c with state := revertOnRejection c.state }
  if feedback ≠ "" then
    { c1 with history := c1.history ++ [.rejection_feedback feedback] }
  else c1

/-- `output.get("state")` with Python truthiness followed by
`CampaignState(...)`: an absent or empty-string value yields the default
state; a non-empty string is parsed, raising (`none`) when invalid. -/
def stateOverride (o : ToolOutput) (dflt : CampaignState) : Option CampaignState :=
  match o.state with
  | some s => if s = "" then some dflt else campaignStateOfString s
  | none => some dflt

/-- The `elif` chain of `CampaignContext.update` (lines 84-148 of
`models/context.py`), before the final history append. `none` models a
raised `ValueError` from `CampaignState(output["state"])`. -/
def CampaignContext.applyOutput (c : CampaignContext) (o : ToolOutput) :
    Option CampaignContext :=
  match o.strategy with
  | some s => some { c with strategy := some s, state := .STRATEGY_DRAFT }
  | none =>
  match o.creators with
  | some cs =>
      some { c with
        creators := cs,
        creator_criteria :=
          match o.creator_criteria with
          | some cr => some cr
          | none => c.creator_criteria,
        state := .CREATOR_DISCOVERY }
  | none =>
  match o.outreach_drafts with
  | some ds => some { c with outreach_drafts := ds, state := .OUTREACH_DRAFT }
  | none =>
  match o.outreach_sent with
  | some v =>
      (stateOverride o .OUTREACH_IN_PROG).map fun st =>
        { c with outreach_sent := some v, state := st }
  | none =>
  match o.engagements with
  | some es =>
      (stateOverride o .NEGOTIATION).map fun st =>
        { c with engagements := es, state := st }
  | none =>
  match o.counter_offer with
  | some co =>
      some { c with
        pending_counter_offer := some co,
        pending_creator_id := o.creator_id,
        state := .AWAITING_TERMS_APPROVAL }
  | none =>
  match o.payment_instructions with
  | some _ =>
      (stateOverride o .CAMPAIGN_ACTIVE).map fun st => { c with state := st }
  | none =>
  match o.monitor_updates with
  | some ms =>
      (stateOverride o .CAMPAIGN_ACTIVE).map fun st =>
        { c with monitor_updates := ms, state := st }
  | none =>
  match o.report with
  | some rp => some { c with report := some rp, state := .COMPLETED }
  | none =>
  match o.approval_granted with
  | some g =>
      if g then some { c with state := advanceAfterApproval c.state }
      else some (c.handleRejection ((o.feedback).getD ""))
  | none =>
  match o.state with
  | some s =>
      (campaignStateOfString s).map fun st => { c with state := st }
  | none =>
  match o.complete with
  | some b => if b then some { c with state := .COMPLETED } else some c
  | none => some c

/-- `CampaignContext.update`: a result with `success=False` returns
immediately; otherwise the `elif` chain runs on `result.output or {}` and
a `{"state", "output_keys"}` record is appended to history. `none` models
a raised exception. -/
def CampaignContext.update (c : CampaignContext) (r : ToolResult) :
    Option CampaignContext :=
  if r.success = false then some c
  else
    let o := r.output.getD {}
    (c.applyOutput o).map fun c1 =>
      { c1 with history := c1.history ++ [.step c1.state o.presentKeys] }

/-! ## Agent actions and `reason` — `models/actions.py`, `agent/hudey_agent.py` -/

/-- `AgentActionType` from `models/actions.py`. -/
inductive AgentActionType where
  | GENERATE_STRATEGY
  | FIND_CREATORS
  | DRAFT_OUTREACH
  | SEND_OUTREACH
  | COLLECT_RESPONSES
  | NEGOTIATE_TERMS
  | REQUEST_TERMS_APPROVAL
  | GENERATE_PAYMENT
  | MONITOR_CAMPAIGN
  | GENERATE_REPORT
  | REQUEST_APPROVAL
  | COMPLETE
  deriving DecidableEq, Repr

/-- A value in an action's `input` dict: the dicts built by `reason` hold
strings, possibly-`None` strings, and one nested dict (`counter_offer`). -/
inductive InVal where
  | str (v : String)
  | optStr (v : Option String)
  | dict (v : List (String × String))
  deriving DecidableEq, Repr

/-- `AgentAction` from `models/actions.py`; `input` is an
insertion-ordered association list mirroring the Python dict. -/
structure AgentAction where
  type : AgentActionType
  input : List (String × InVal) := []
  requires_approval : Bool := false
  reasoning : Option String := none
  deriving DecidableEq, Repr

/-- `(context.pending_counter_offer or {})` as used by `reason`: the
opaque offer payload is an association list here so that
`.get("proposed_terms")` in the `PAYMENT_PENDING` branch is expressible;
`CampaignContext.pending_counter_offer`'s opaque string is not needed by
`reason`, which reads the typed agent-side context below. -/
structure AgentCtxView where
  state : CampaignState
  creators : List String := []
  outreach_drafts : List String := []
  engagements : List (String × CreatorEngagement) := []
  pending_counter_offer : Option (List (String × String)) := none
  pending_creator_id : Option String := none
  monitor_updates : List String := []
  report : Option String := none
  deriving DecidableEq, Repr

/-- `HudeyAgent.reason` (`agent/hudey_agent.py` lines 149-297): a pure,
total function of the context — one branch per state, with content checks
on `creators`, `outreach_drafts`, `engagements`, `monitor_updates` and
`report`, and a catch-all `COMPLETE` action for any unmatched state. -/
def reason (c : AgentCtxView) : AgentAction :=
  if c.state = .BRIEF_RECEIVED then
    { type := .GENERATE_STRATEGY, input := [], requires_approval := false,
      reasoning := some "Generate campaign strategy from brief." }
  else if c.state = .STRATEGY_DRAFT then
    { type := .REQUEST_APPROVAL,
      input := [("approval_type", .str "strategy"), ("subject", .str "Campaign strategy")],
      requires_approval := true,
      reasoning := some "Strategy ready; request human approval." }
  else if c.state = .AWAITING_BRIEF_APPROVAL then
    { type := .FIND_CREATORS, input := [], requires_approval := false,
      reasoning := some "Approval granted; discover creators." }
  else if c.state = .CREATOR_DISCOVERY then
    if c.creators = [] then
      { type := .FIND_CREATORS, input := [], requires_approval := false,
        reasoning := some "Discover and rank creators." }
    else
      { type := .REQUEST_APPROVAL,
        input := [("approval_type", .str "creators"), ("subject", .str "Creator shortlist")],
        requires_approval := true,
        reasoning := some "Creators found; request approval." }
  else if c.state = .AWAITING_CREATOR_APPROVAL then
    { type := .DRAFT_OUTREACH, input := [], requires_approval := false,
      reasoning := some "Approval granted; draft outreach." }
  else if c.state = .OUTREACH_DRAFT then
    if c.outreach_drafts = [] then
      { type := .DRAFT_OUTREACH, input := [], requires_approval := false,
        reasoning := some "Draft personalized outreach messages." }
    else
      { type := .REQUEST_APPROVAL,
        input := [("approval_type", .str "outreach"), ("subject", .str "Outreach drafts")],
        requires_approval := true,
        reasoning := some "Outreach drafted; request approval." }
  else if c.state = .OUTREACH_IN_PROG then
    { type := .SEND_OUTREACH, input := [], requires_approval := false,
      reasoning := some "Send approved outreach emails to creators." }
  else if c.state = .NEGOTIATION then
    if c.engagements = [] then
      { type := .COLLECT_RESPONSES, input := [], requires_approval := false,
        reasoning := some "Collect creator responses from webhooks/disk." }
    else
      match ((c.engagements.filter fun p => p.2.status = .RESPONDED).map Prod.fst) with
      | cid :: _ =>
          { type := .NEGOTIATE_TERMS, input := [("creator_id", .str cid)],
            requires_approval := false,
            reasoning := some "Compose counter offer for responding creator." }
      | [] =>
          { type := .COLLECT_RESPONSES, input := [], requires_approval := false,
            reasoning := some "No responded engagements; proceed to campaign active." }
  else if c.state = .AWAITING_TERMS_APPROVAL then
    { type := .REQUEST_TERMS_APPROVAL,
      input := [("approval_type", .str "terms"), ("subject", .str "Counter offer terms"),
                ("counter_offer", .dict (c.pending_counter_offer.getD []))],
      requires_approval := true,
      reasoning := some "Request human approval for proposed terms." }
  else if c.state = .PAYMENT_PENDING then
    { type := .GENERATE_PAYMENT,
      input := [("creator_id", .optStr c.pending_creator_id),
                ("terms", .optStr
                  (((c.pending_counter_offer.getD []).lookup "proposed_terms")))],
      requires_approval := false,
      reasoning := some "Generate payment instructions from agreed terms." }
  else if c.state = .CAMPAIGN_ACTIVE then
    if c.monitor_updates = [] then
      { type := .MONITOR_CAMPAIGN, input := [], requires_approval := false,
        reasoning := some "Monitor creator posts and collect metrics." }
    else if c.report = none then
      { type := .GENERATE_REPORT, input := [], requires_approval := false,
        reasoning := some "Generate final analytics report." }
    else
      { type := .COMPLETE, input := [], requires_approval := false,
        reasoning := some "Report completed." }
  else if c.state = .AWAITING_OUTREACH_APPROVAL then
    { type := .REQUEST_APPROVAL,
      input := [("approval_type", .str "outreach"), ("subject", .str "Outreach drafts")],
      requires_approval := true,
      reasoning := some "Outreach drafted; request approval." }
  else
    { type := .COMPLETE, input := [], requires_approval := false,
      reasoning := some "No further actions." }

/-! ## Job queue — `backend/db/repositories/job_repo.py`

The `campaign_jobs` table is a list of rows; `created_at` is a numeric
ordering key. Each repository function is a pure transition on the list.
`claim_next` is split over two snapshots — the one the oldest-queued
select observed and the (possibly concurrently modified) one the guarded
update runs against — so the compare-and-set guard is meaningful. -/

/-- One row of `campaign_jobs`. `max_attempts` is `Option` because
`fail`/`recover_stale_jobs` read it with `.get("max_attempts", default)`. -/
structure JobRow where
  id : String
  campaign_id : String
  status : String
  locked_by : Option String := none
  locked_at : Option String := none
  attempts : Nat := 0
  max_attempts : Option Nat := none
  last_error : Option String := none
  created_at : Nat := 0
  updated_at : String := ""
  deriving DecidableEq, Repr

/-- One row of the `campaigns` table (only the columns the core touches). -/
structure CampaignRow where
  id : String
  status : String
  agent_state : String
  deriving DecidableEq, Repr

/-- Running minimum by `created_at` (first row wins ties, as a stable
ascending sort would order them). -/
def oldestFirst (r : JobRow) : List JobRow → JobRow
  | [] => r
  | x :: t => if x.created_at < r.created_at then oldestFirst x t else oldestFirst r t

/-- The select in `claim_next`: rows with `status='queued'`, ordered by
`created_at` ascending, `limit 1` — the first queued row with minimal
`created_at`. -/
def selectOldestQueued (db : List JobRow) : Option JobRow :=
  match db.filter fun r => r.status = "queued" with
  | [] => none
  | r :: t => some (oldestFirst r t)

/-- The row update applied by `claim_next`'s guarded write. `attempts`
comes from the row read at select time, not the row being written. -/
def claimedRow (r : JobRow) (selAttempts : Nat) (wid now : String) : JobRow :=
  { r with status := "running", locked_by := some wid, locked_at := some now,
           attempts := selAttempts + 1, updated_at := now }

/-- `claim_next` (`job_repo.py` lines 54-100): select the oldest queued
job from `selectDb`; run the guarded update (`WHERE id = job.id AND
status = 'queued'`) against `updateDb`; if the guard matched no rows
return `none`, else return the first updated row. -/
def claim_next (selectDb updateDb : List JobRow) (wid now : String) :
    List JobRow × Option JobRow :=
  match selectOldestQueued selectDb with
  | none => (updateDb, none)
  | some job =>
    let newDb := updateDb.map fun r =>
      if r.id = job.id ∧ r.status = "queued" then claimedRow r job.attempts wid now
      else r
    let affected := (updateDb.filter fun r => r.id = job.id ∧ r.status = "queued").map
      fun r => claimedRow r job.attempts wid now
    match affected with
    | [] => (newDb, none)
    | r :: _ => (newDb, some r)

/-- `enqueue`: upsert a queued row keyed on `campaign_id`, clearing lock
and attempt bookkeeping; returns the first resulting row's id. -/
def enqueue (db : List JobRow) (campaignId now newId : String) (newCreated : Nat) :
    List JobRow × Option String :=
  if db.any fun r => r.campaign_id = campaignId then
    let newDb := db.map fun r =>
      if r.campaign_id = campaignId then
        { r with status := "queued", locked_by := none, locked_at := none,
                 attempts := 0, last_error := none, updated_at := now }
      else r
    (newDb, (newDb.filter fun r => r.campaign_id = campaignId).head?.map (·.id))
  else
    (db ++ [{ id := newId, campaign_id := campaignId, status := "queued",
              attempts := 0, created_at := newCreated, updated_at := now }],
     some newId)

/-- `complete`: mark the row with this id `completed`. -/
def complete (db : List JobRow) (jobId now : String) : List JobRow :=
  db.map fun r =>
    if r.id = jobId then { r with status := "completed", updated_at := now } else r

/-- `fail` (`job_repo.py` lines 121-148): read the row's `attempts` and
`max_attempts` (defaulting to the `max_attempts` argument, itself
defaulting to 3 at the call sites); re-queue when `attempts < max`, else
mark failed; always clear the lock and record the error truncated to 500
characters. Returns the updated table and the function's boolean result. -/
def fail (db : List JobRow) (jobId error : String) (maxAttemptsArg : Nat) (now : String) :
    List JobRow × Bool :=
  match (db.filter fun r => r.id = jobId).head? with
  | none => (db, false)
  | some row =>
    let maxAtt := row.max_attempts.getD maxAttemptsArg
    let newStatus := if row.attempts < maxAtt then "queued" else "failed"
    (db.map fun r =>
      if r.id = jobId then
        { r with status := newStatus, last_error := some (error.take 500),
                 locked_by := none, locked_at := none, updated_at := now }
      else r, true)

/-- The per-job body of `recover_stale_jobs`: requeue or fail one stale
running job and, when re-queued, push its campaign back to `running`. -/
def recoverOne (jobs : List JobRow) (campaigns : List CampaignRow)
    (job : JobRow) (now : String) : List JobRow × List CampaignRow :=
  let maxAtt := job.max_attempts.getD 3
  let newStatus := if job.attempts < maxAtt then "queued" else "failed"
  let jobs1 := jobs.map fun r =>
    if r.id = job.id then
      { r with status := newStatus, locked_by := none, locked_at := none,
               last_error := some "Worker died — recovered on startup",
               updated_at := now }
    else r
  let campaigns1 :=
    if newStatus = "queued" then
      campaigns.map fun cr =>
        if cr.id = job.campaign_id then
          { cr with status := "running", agent_state := "brief_received" }
        else cr
    else campaigns
  (jobs1, campaigns1)

/-- `recover_stale_jobs` (`job_repo.py` lines 151-203): process every
`running` row in table order. -/
def recover_stale_jobs (jobs : List JobRow) (campaigns : List CampaignRow)
    (now : String) : List JobRow × List CampaignRow :=
  (jobs.filter fun r => r.status = "running").foldl
    (fun acc job => recoverOne acc.1 acc.2 job now) (jobs, campaigns)

/-- `update_campaign(campaign_id, {"status": ..., "agent_state": ...})`
as called from the worker's failure path. -/
def update_campaign (campaigns : List CampaignRow) (campaignId status agentState : String) :
    List CampaignRow :=
  campaigns.map fun cr =>
    if cr.id = campaignId then { cr with status := status, agent_state := agentState }
    else cr

/-- The worker's job-failure path (`backend/worker.py` lines 128-139):
on an exception from executing the campaign, call `job_repo.fail(job_id,
str(e))` (so `max_attempts` defaults to 3) and then unconditionally mark
the campaign `failed` with the error truncated to 200 characters. -/
def workerHandleFailure (jobs : List JobRow) (campaigns : List CampaignRow)
    (jobId campaignId error now : String) : List JobRow × List CampaignRow :=
  let jobs1 := (fail jobs jobId error 3 now).1
  let campaigns1 :=
    update_campaign campaigns campaignId "failed" ("error: " ++ error.take 200)
  (jobs1, campaigns1)

/-! ## Response router — `services/response_router.py`

The `.tmp` file stores are modelled as association lists inside a
`RouterStore`: the `outreach_message_ids.json` mapping, the
`outreach_sent_*.json` files (keyed by the campaign id taken from the
file name), and the per-campaign engagement files flattened to a
`(campaign_id, creator_id)`-keyed list. -/

/-- One entry of the message-id mapping file: a JSON object read with
`entry.get("campaign_id")` / `entry.get("creator_id")`. -/
structure MappingRaw where
  campaign_id : Option String := none
  creator_id : Option String := none
  deriving DecidableEq, Repr

/-- One entry of an `outreach_sent_*.json` `messages` list. -/
structure SentMsg where
  email : Option String := none
  creator_id : Option String := none
  deriving DecidableEq, Repr

/-- A stored engagement as raw JSON (every key may be absent), as read by
`ingest_response` with `raw.get(...)`. -/
structure EngRaw where
  creator_id : Option String := none
  status : Option String := none
  latest_proposal : Option String := none
  terms : Option String := none
  message_history : List MsgEntry := []
  response_timestamp : Option String := none
  notes : Option String := none
  deriving DecidableEq, Repr

/-- `model_dump()` of a `CreatorEngagement`, as persisted by
`_save_engagements`. -/
def CreatorEngagement.toRaw (e : CreatorEngagement) : EngRaw :=
  { creator_id := some e.creator_id, status := some e.status.value,
    latest_proposal := e.latest_proposal, terms := e.terms,
    message_history := e.message_history,
    response_timestamp := e.response_timestamp, notes := e.notes }

/-- The on-disk state read and written by the response router. -/
structure RouterStore where
  message_mapping : List (String × MappingRaw) := []
  sent_files : List (String × List SentMsg) := []
  engagements : List ((String × String) × EngRaw) := []
  deriving DecidableEq, Repr

/-- Python truthiness on an optional string: `None` and `""` are falsy. -/
def pyTruthy : Option String → Option String
  | some s => if s = "" then none else some s
  | none => none

/-- `_lookup_by_email`: scan the sent files in order; in each, find the
first message whose normalized email equals the normalized sender;
return that file's campaign id and the message's `creator_id` (defaulted
to `""`). -/
def lookupByEmail (files : List (String × List SentMsg)) (fromEmail : String) :
    Option (String × String) :=
  files.findSome? fun p =>
    (p.2.find? fun m =>
        ((m.email.getD "").toLower.trim = fromEmail.toLower.trim)).map
      fun m => (p.1, m.creator_id.getD "")

/-- Python dict assignment `engagements[cid] = ...`: replace in place if
the key exists, else append. -/
def setEngagement (st : List ((String × String) × EngRaw)) (key : String × String)
    (v : EngRaw) : List ((String × String) × EngRaw) :=
  if st.any fun p => p.1 = key then
    st.map fun p => if p.1 = key then (key, v) else p
  else st ++ [(key, v)]

/-- The dictionary returned by `ingest_response`. -/
structure IngestResult where
  success : Bool
  campaign_id : Option String := none
  creator_id : Option String := none
  engagement : Option CreatorEngagement := none
  error : Option String := none
  deriving DecidableEq, Repr

/-- The resolution phase of `ingest_response` (lines 90-103): look up
`(campaign_id, creator_id)` from the message-id mapping when the message
id is truthy, then fall back to the sender-email scan when the campaign
id is still falsy and a sender is given. -/
def resolveIds (store : RouterStore) (message_id from_email : Option String) :
    Option String × Option String :=
  let entry : Option MappingRaw :=
    match pyTruthy message_id with
    | some mid => store.message_mapping.lookup mid
    | none => none
  let cid0 : Option String := entry.bind fun e => e.campaign_id
  let crid0 : Option String := entry.bind fun e => e.creator_id
  match pyTruthy cid0, pyTruthy from_email with
  | none, some fe =>
    match lookupByEmail store.sent_files fe with
    | some pr => (some pr.1, some pr.2)
    | none => (cid0, crid0)
  | _, _ => (cid0, crid0)

/-- The application phase of `ingest_response` (lines 111-140): rebuild
the engagement from the stored raw record (status defaulting to
`responded`, raising — `none` — on an invalid stored status), append the
creator message, set `response_timestamp`, force status `RESPONDED`, and
persist. -/
def applyReply (store : RouterStore) (camp cr body ts : String) :
    Option (RouterStore × IngestResult) :=
  let raw := (store.engagements.lookup (camp, cr)).getD {}
  match engagementStatusOfString (raw.status.getD "responded") with
  | none => none
  | some st0 =>
    let eng0 : CreatorEngagement :=
      { creator_id := cr, status := st0,
        latest_proposal := raw.latest_proposal, terms := raw.terms,
        message_history := raw.message_history,
        response_timestamp := raw.response_timestamp, notes := raw.notes }
    let eng : CreatorEngagement :=
      { eng0 with
        message_history := eng0.message_history ++ [⟨"creator", body, ts⟩],
        response_timestamp := some ts, status := .RESPONDED }
    some ({ store with
              engagements := setEngagement store.engagements (camp, cr) eng.toRaw },
          { success := true, campaign_id := some camp, creator_id := some cr,
            engagement := some eng })

/-- `ingest_response` (`services/response_router.py` lines 66-140):
resolve `(campaign_id, creator_id)` by message id, falling back to the
sender-email scan; on resolution failure return `success=False` without
touching the store; otherwise apply the reply via `applyReply`. `none`
models a raised exception. `now` stands for
`datetime.now(...).isoformat()`, used when `timestamp` is falsy. -/
def ingest_response (store : RouterStore) (body : String)
    (message_id from_email timestamp : Option String) (now : String) :
    Option (RouterStore × IngestResult) :=
  let ts := (pyTruthy timestamp).getD now
  match pyTruthy (resolveIds store message_id from_email).1,
        pyTruthy (resolveIds store message_id from_email).2 with
  | some camp, some cr => applyReply store camp cr body ts
  | _, _ =>
    some (store,
      { success := false,
        error := some "Could not resolve campaign/creator from message_id or from_email" })

/-! ## Inbound-reply webhook — `backend/api/routes/webhooks.py` -/

/-- An executable stand-in for `hashlib.sha256(...).hexdigest()[:32]`
(the hash itself is an external library; only determinism is relied on):
a 32-bit polynomial rolling hash rendered as a decimal string. -/
def sha256hex32 (s : String) : String :=
  toString (s.data.foldl (fun h c => (h * 31 + c.toNat) % 4294967296) 7)

/-- `_compute_inbound_dedup_key`: prefer `msgid:{message_id}` when the
message id is truthy, else hash `from_email + ":" + body`. -/
def computeInboundDedupKey (fromEmail body messageId : String) : String :=
  if messageId ≠ "" then "msgid:" ++ messageId
  else "hash:" ++ sha256hex32 (fromEmail ++ ":" ++ body)

/-- The persistent state touched by the inbound webhook: the
`processed_inbound_replies` dedup ledger and the router store. The
`webhook_log` audit table is write-only and never read back, so it is
omitted. -/
structure WebhookState where
  processed : List String := []
  router : RouterStore := {}
  deriving DecidableEq, Repr

/-- The JSON body (plus HTTP status) returned by the inbound webhook. -/
structure WebhookResp where
  status_code : Nat
  ok : Bool := false
  duplicate : Bool := false
  routed : Option Bool := none
  reason : Option String := none
  campaign_id : Option String := none
  creator_id : Option String := none
  statusField : Option String := none
  error : Option String := none
  deriving DecidableEq, Repr

/-- `inbound_email_webhook` (`webhooks.py` lines 229-376) from the point
where the sender, body and message id have been extracted (signature
verification and JSON parsing precede any state access and return 400
with the state unchanged): validate, compute the dedup key, short-circuit
duplicates, route via `ingest_response`, and record the dedup key only
after a successful application. `timestamp` is the extracted timestamp
string (empty when absent), passed on as `None` when falsy. -/
def inbound_email_webhook (st : WebhookState)
    (fromEmail replyBody messageId timestamp : String) (now : String) :
    WebhookState × WebhookResp :=
  if fromEmail = "" ∨ replyBody = "" then
    (st, { status_code := 400, error := some "Missing from_email or body" })
  else
    let key := computeInboundDedupKey fromEmail replyBody messageId
    if key ∈ st.processed then
      (st, { status_code := 200, ok := true, duplicate := true })
    else
      match ingest_response st.router replyBody
          (if messageId = "" then none else some messageId)
          (some fromEmail)
          (if timestamp = "" then none else some timestamp) now with
      | none => (st, { status_code := 500, error := some "Internal processing error" })
      | some (router1, res) =>
        if res.success then
          ({ processed := st.processed ++ [key], router := router1 },
           { status_code := 200, ok := true, campaign_id := res.campaign_id,
             creator_id := res.creator_id, statusField := some "responded" })
        else
          ({ st with router := router1 },
           { status_code := 200, ok := true, routed := some false, reason := res.error })

/-- Iterated re-delivery of one payload to the inbound webhook. -/
def inboundIter (n : Nat) (st : WebhookState)
    (fromEmail replyBody messageId timestamp now : String) : WebhookState :=
  match n with
  | 0 => st
  | n + 1 =>
    inboundIter n
      (inbound_email_webhook st fromEmail replyBody messageId timestamp now).1
      fromEmail replyBody messageId timestamp now

/-! ## Creator-response webhook — `backend/api/routes/approvals.py` -/

/-- The HTTP outcome of `creator_response_webhook`: either the ingest
result rendered with status 200, or an `HTTPException` status/detail. -/
structure CrResp where
  status_code : Nat
  detail : Option String := none
  result : Option IngestResult := none
  deriving DecidableEq, Repr

/-- `creator_response_webhook` (`approvals.py` lines 102-120): 400 when
`body` is missing or empty; otherwise call `ingest_response` and return
its result on success — but raise a 404 `HTTPException` when routing
fails. An exception from the router surfaces as a 500. -/
def creator_response_webhook (store : RouterStore)
    (body message_id from_email timestamp : Option String) (now : String) :
    RouterStore × CrResp :=
  let text := body.getD ""
  if text = "" then (store, { status_code := 400, detail := some "body required" })
  else
    match ingest_response store text message_id from_email timestamp now with
    | none => (store, { status_code := 500, detail := some "Internal Server Error" })
    | some pr =>
      if pr.2.success then (pr.1, { status_code := 200, result := some pr.2 })
      else (pr.1, { status_code := 404, detail := some (pr.2.error.getD "Not found") })

/-! ## Helper lemmas on the state machine -/

/-- `_handle_rejection` changes only the state (via the revert table) and
the history; in particular the resulting state is the table lookup. -/
theorem handleRejection_state (c : CampaignContext) (f : String) :
    (c.handleRejection f).state = revertOnRejection c.state := by
  unfold CampaignContext.handleRejection
  split <;> rfl

/-- The history of a rejection-handled context: the rejection-feedback
record is appended exactly when the feedback string is non-empty. -/
theorem handleRejection_history (c : CampaignContext) (f : String) (hf : f ≠ "") :
    (c.handleRejection f).history = c.history ++ [.rejection_feedback f] := by
  unfold CampaignContext.handleRejection
  simp [hf]

/-! ## C7 — a failed result is a no-op on the context -/

/-- C7: for every context and every result with `success=false`,
`update(context, result)` returns the context entirely unchanged — no
state advance, no artifact change, no history entry — so the worker can
retry the same action (`models/context.py` lines 77-80). -/
theorem update_failure_is_noop (c : CampaignContext) (r : ToolResult)
    (h : r.success = false) : c.update r = some c := by
  simp [CampaignContext.update, h]

/-- Witness for C7 at a concrete context and failed result. -/
theorem update_failure_is_noop_witness :
    ({ campaign_id := "c1", state := .NEGOTIATION } : CampaignContext).update
      { success := false, error := some "boom" }
      = some { campaign_id := "c1", state := .NEGOTIATION } :=
  update_failure_is_noop { campaign_id := "c1", state := .NEGOTIATION }
    { success := false, error := some "boom" } rfl

/-! ## C3 — rejection reverts to the fixed predecessor -/

/-- C3: for every context in an `Awaiting*Approval` state, applying an
approval result with `granted=false` reverts the state to that gate's
fixed predecessor (`awaiting_brief_approval → strategy_draft`,
`awaiting_creator_approval → creator_discovery`,
`awaiting_outreach_approval → outreach_draft`,
`awaiting_terms_approval → negotiation`), which is strictly earlier in
the workflow order (never a later state), and records any non-empty
feedback text in the history log. The hypotheses pin the output dict to
an approval result: `approval_granted=False` with a feedback value and
none of the earlier-probed artifact keys. -/
theorem update_rejection_reverts (c : CampaignContext) (o : ToolOutput) (f : String)
    (h1 : o.strategy = none) (h2 : o.creators = none)
    (h3 : o.outreach_drafts = none) (h4 : o.outreach_sent = none)
    (h5 : o.engagements = none) (h6 : o.counter_offer = none)
    (h7 : o.payment_instructions = none) (h8 : o.monitor_updates = none)
    (h9 : o.report = none) (h10 : o.approval_granted = some false)
    (h11 : o.feedback = some f) :
    ∃ c', c.update { success := true, output := some o } = some c' ∧
      (c.state = .AWAITING_BRIEF_APPROVAL →
        c'.state = .STRATEGY_DRAFT ∧ c'.state.idx < c.state.idx) ∧
      (c.state = .AWAITING_CREATOR_APPROVAL →
        c'.state = .CREATOR_DISCOVERY ∧ c'.state.idx < c.state.idx) ∧
      (c.state = .AWAITING_OUTREACH_APPROVAL →
        c'.state = .OUTREACH_DRAFT ∧ c'.state.idx < c.state.idx) ∧
      (c.state = .AWAITING_TERMS_APPROVAL →
        c'.state = .NEGOTIATION ∧ c'.state.idx < c.state.idx) ∧
      (f ≠ "" → HistEntry.rejection_feedback f ∈ c'.history) := by
  have happly : c.applyOutput o = some (c.handleRejection f) := by
    unfold CampaignContext.applyOutput
    rw [h1, h2, h3, h4, h5, h6, h7, h8, h9, h10, h11]
    rfl
  have hupd : c.update { success := true, output := some o } =
      some { c.handleRejection f with
              history := (c.handleRejection f).history
                ++ [.step (c.handleRejection f).state o.presentKeys] } := by
    simp [CampaignContext.update, happly]
  refine ⟨_, hupd, ?_, ?_, ?_, ?_, ?_⟩
  · intro hs
    constructor <;> simp [handleRejection_state, revertOnRejection, hs,
      CampaignState.idx]
  · intro hs
    constructor <;> simp [handleRejection_state, revertOnRejection, hs,
      CampaignState.idx]
  · intro hs
    constructor <;> simp [handleRejection_state, revertOnRejection, hs,
      CampaignState.idx]
  · intro hs
    constructor <;> simp [handleRejection_state, revertOnRejection, hs,
      CampaignState.idx]
  · intro hf
    simp [handleRejection_history c f hf]

/-- Witness for C3: a context awaiting terms approval, rejected with
feedback `"too broad"`, reverts to `negotiation` and logs the feedback. -/
theorem update_rejection_reverts_witness :
    ∃ c', ({ state := .AWAITING_TERMS_APPROVAL } : CampaignContext).update
        { success := true,
          output := some { approval_granted := some false, feedback := some "too broad" } }
        = some c' ∧
      c'.state = .NEGOTIATION ∧ c'.state.idx < CampaignState.idx .AWAITING_TERMS_APPROVAL ∧
      HistEntry.rejection_feedback "too broad" ∈ c'.history := by
  obtain ⟨c', hupd, _, _, _, h4, hf⟩ :=
    update_rejection_reverts { state := .AWAITING_TERMS_APPROVAL }
      { approval_granted := some false, feedback := some "too broad" } "too broad"
      rfl rfl rfl rfl rfl rfl rfl rfl rfl rfl rfl
  obtain ⟨hst, hlt⟩ := h4 rfl
  exact ⟨c', hupd, hst, hlt, hf (by decide)⟩

/-! ## C6 — `reason` is total; brief → strategy, terminal → complete -/

/-- C6: `reason` is a total, deterministic (pure) Lean function of the
context — it is defined for every state by construction and consults no
clock or randomness. For every context in state `brief_received` it
returns the generate-strategy action (not requiring approval), and for
every context in the one state with no dedicated branch — the terminal
`completed` state — it returns the catch-all "No further actions."
`COMPLETE` action. -/
theorem reason_brief_and_terminal (c₁ c₂ : AgentCtxView)
    (hb : c₁.state = .BRIEF_RECEIVED) (ht : c₂.state = .COMPLETED) :
    (reason c₁).type = .GENERATE_STRATEGY ∧
    (reason c₁).requires_approval = false ∧
    reason c₂ = { type := .COMPLETE, input := [], requires_approval := false,
                  reasoning := some "No further actions." } := by
  refine ⟨?_, ?_, ?_⟩ <;> simp [reason, hb, ht]

/-- Witness for C6 at a fresh brief-received context and a completed one. -/
theorem reason_brief_and_terminal_witness :
    (reason { state := .BRIEF_RECEIVED }).type = .GENERATE_STRATEGY ∧
    (reason { state := .BRIEF_RECEIVED }).requires_approval = false ∧
    reason { state := .COMPLETED }
      = { type := .COMPLETE, input := [], requires_approval := false,
          reasoning := some "No further actions." } :=
  reason_brief_and_terminal { state := .BRIEF_RECEIVED } { state := .COMPLETED } rfl rfl

/-! ## C8 — `update` is idempotent on the state under replay -/

/-- The state produced by `applyOutput`, as a function of the output and
the current state only (a projection of `CampaignContext.applyOutput`
used in the idempotence proof; it mirrors its branch structure). -/
def nextStateOf (o : ToolOutput) (s : CampaignState) : Option CampaignState :=
  match o.strategy with
  | some _ => some .STRATEGY_DRAFT
  | none =>
  match o.creators with
  | some _ => some .CREATOR_DISCOVERY
  | none =>
  match o.outreach_drafts with
  | some _ => some .OUTREACH_DRAFT
  | none =>
  match o.outreach_sent with
  | some _ => stateOverride o .OUTREACH_IN_PROG
  | none =>
  match o.engagements with
  | some _ => stateOverride o .NEGOTIATION
  | none =>
  match o.counter_offer with
  | some _ => some .AWAITING_TERMS_APPROVAL
  | none =>
  match o.payment_instructions with
  | some _ => stateOverride o .CAMPAIGN_ACTIVE
  | none =>
  match o.monitor_updates with
  | some _ => stateOverride o .CAMPAIGN_ACTIVE
  | none =>
  match o.report with
  | some _ => some .COMPLETED
  | none =>
  match o.approval_granted with
  | some g =>
      some (if g then advanceAfterApproval s else revertOnRejection s)
  | none =>
  match o.state with
  | some s' => campaignStateOfString s'
  | none =>
  match o.complete with
  | some b => some (if b then .COMPLETED else s)
  | none => some s

/-- The state reached by `applyOutput` depends only on the output and the
current state. -/
theorem applyOutput_state_eq (c : CampaignContext) (o : ToolOutput) :
    (c.applyOutput o).map (·.state) = nextStateOf o c.state := by
  unfold CampaignContext.applyOutput nextStateOf
  rcases g1 : o.strategy with _ | v1
  case some => simp [g1]
  rcases g2 : o.creators with _ | v2
  case some => simp [g1, g2]
  rcases g3 : o.outreach_drafts with _ | v3
  case some => simp [g1, g2, g3]
  rcases g4 : o.outreach_sent with _ | v4
  case some =>
    simp only [g1, g2, g3, g4]
    cases stateOverride o .OUTREACH_IN_PROG <;> rfl
  rcases g5 : o.engagements with _ | v5
  case some =>
    simp only [g1, g2, g3, g4, g5]
    cases stateOverride o .NEGOTIATION <;> rfl
  rcases g6 : o.counter_offer with _ | v6
  case some => simp [g1, g2, g3, g4, g5, g6]
  rcases g7 : o.payment_instructions with _ | v7
  case some =>
    simp only [g1, g2, g3, g4, g5, g6, g7]
    cases stateOverride o .CAMPAIGN_ACTIVE <;> rfl
  rcases g8 : o.monitor_updates with _ | v8
  case some =>
    simp only [g1, g2, g3, g4, g5, g6, g7, g8]
    cases stateOverride o .CAMPAIGN_ACTIVE <;> rfl
  rcases g9 : o.report with _ | v9
  case some => simp [g1, g2, g3, g4, g5, g6, g7, g8, g9]
  rcases g10 : o.approval_granted with _ | v10
  case some =>
    simp only [g1, g2, g3, g4, g5, g6, g7, g8, g9, g10]
    cases v10 <;> simp [handleRejection_state]
  rcases g11 : o.state with _ | v11
  case some =>
    simp only [g1, g2, g3, g4, g5, g6, g7, g8, g9, g10, g11]
    cases campaignStateOfString v11 <;> rfl
  rcases g12 : o.complete with _ | v12
  case some =>
    simp only [g1, g2, g3, g4, g5, g6, g7, g8, g9, g10, g11, g12]
    cases v12 <;> simp
  simp [g1, g2, g3, g4, g5, g6, g7, g8, g9, g10, g11, g12]

/-- The approval-advance table's range is disjoint from its domain, so a
second advance is a no-op. -/
theorem advanceAfterApproval_idem (s : CampaignState) :
    advanceAfterApproval (advanceAfterApproval s) = advanceAfterApproval s := by
  cases s <;> rfl

/-- The rejection-revert table's range is disjoint from its domain, so a
second revert is a no-op. -/
theorem revertOnRejection_idem (s : CampaignState) :
    revertOnRejection (revertOnRejection s) = revertOnRejection s := by
  cases s <;> rfl

/-- Replaying an output on the state it produced reproduces that state. -/
theorem nextStateOf_idem (o : ToolOutput) (s s₁ : CampaignState)
    (h : nextStateOf o s = some s₁) : nextStateOf o s₁ = some s₁ := by
  unfold nextStateOf at h ⊢
  rcases g1 : o.strategy with _ | v1
  case some => rw [g1] at h; simp_all
  rcases g2 : o.creators with _ | v2
  case some => rw [g1, g2] at h; simp_all
  rcases g3 : o.outreach_drafts with _ | v3
  case some => rw [g1, g2, g3] at h; simp_all
  rcases g4 : o.outreach_sent with _ | v4
  case some => rw [g1, g2, g3, g4] at h; simp_all
  rcases g5 : o.engagements with _ | v5
  case some => rw [g1, g2, g3, g4, g5] at h; simp_all
  rcases g6 : o.counter_offer with _ | v6
  case some => rw [g1, g2, g3, g4, g5, g6] at h; simp_all
  rcases g7 : o.payment_instructions with _ | v7
  case some => rw [g1, g2, g3, g4, g5, g6, g7] at h; simp_all
  rcases g8 : o.monitor_updates with _ | v8
  case some => rw [g1, g2, g3, g4, g5, g6, g7, g8] at h; simp_all
  rcases g9 : o.report with _ | v9
  case some => rw [g1, g2, g3, g4, g5, g6, g7, g8, g9] at h; simp_all
  rcases g10 : o.approval_granted with _ | v10
  case some =>
    rw [g1, g2, g3, g4, g5, g6, g7, g8, g9, g10] at h
    simp only [Option.some.injEq] at h
    subst h
    cases v10 <;> simp [advanceAfterApproval_idem, revertOnRejection_idem]
  rcases g11 : o.state with _ | v11
  case some => rw [g1, g2, g3, g4, g5, g6, g7, g8, g9, g10, g11] at h; simp_all
  rcases g12 : o.complete with _ | v12
  case some =>
    rw [g1, g2, g3, g4, g5, g6, g7, g8, g9, g10, g11, g12] at h
    simp only [Option.some.injEq] at h
    subst h
    cases v12 <;> simp
  rw [g1, g2, g3, g4, g5, g6, g7, g8, g9, g10, g11, g12] at h
  try simp_all

/-- C8: `update` is idempotent on the state under replay of the same
successful result — whenever a first application succeeds, applying the
identical result again succeeds and leaves the `state` field exactly
where the first application put it (artifact fields may be re-overwritten
with the same values). -/
theorem update_replay_idempotent_on_state (c : CampaignContext) (r : ToolResult)
    (c₁ : CampaignContext) (h : c.update r = some c₁) :
    ∃ c₂, c₁.update r = some c₂ ∧ c₂.state = c₁.state := by
  by_cases hs : r.success = false
  · rw [CampaignContext.update, if_pos hs] at h
    simp only [Option.some.injEq] at h
    subst h
    exact ⟨c, by rw [CampaignContext.update, if_pos hs], rfl⟩
  · rw [CampaignContext.update, if_neg hs] at h
    rw [Option.map_eq_some'] at h
    obtain ⟨d, hd, hc1⟩ := h
    have hst : nextStateOf (r.output.getD {}) c.state = some d.state := by
      rw [← applyOutput_state_eq, hd]; rfl
    have hc1st : c₁.state = d.state := by rw [← hc1]
    have hidem : nextStateOf (r.output.getD {}) c₁.state = some c₁.state := by
      rw [hc1st]; exact nextStateOf_idem _ _ _ hst
    have h2 : (c₁.applyOutput (r.output.getD {})).map (·.state) = some c₁.state := by
      rw [applyOutput_state_eq]; exact hidem
    rw [Option.map_eq_some'] at h2
    obtain ⟨d₂, hd₂, hd₂st⟩ := h2
    refine ⟨{ d₂ with history := d₂.history
        ++ [.step d₂.state (r.output.getD {}).presentKeys] }, ?_, ?_⟩
    · rw [CampaignContext.update, if_neg hs]
      simp [hd₂]
    · exact hd₂st

/-- Witness for C8: replaying a "strategy set" result on the context it
produced succeeds and keeps the state at `strategy_draft`. -/
theorem update_replay_idempotent_on_state_witness :
    ∃ c₂, ({ strategy := some "plan", state := .STRATEGY_DRAFT,
             history := [.step .STRATEGY_DRAFT ["strategy"]] } : CampaignContext).update
        { success := true, output := some { strategy := some "plan" } } = some c₂ ∧
      c₂.state = CampaignState.STRATEGY_DRAFT := by
  obtain ⟨c₂, hu, hst⟩ :=
    update_replay_idempotent_on_state ({} : CampaignContext)
      { success := true, output := some { strategy := some "plan" } }
      { strategy := some "plan", state := .STRATEGY_DRAFT,
        history := [.step .STRATEGY_DRAFT ["strategy"]] }
      (by decide)
  exact ⟨c₂, hu, by rw [hst]⟩

/-! ## Helper lemmas on the job queue -/

/-- `oldestFirst` returns its seed or a list element, with minimal
`created_at` among seed and list. -/
theorem oldestFirst_spec (l : List JobRow) : ∀ (r : JobRow),
    (oldestFirst r l = r ∨ oldestFirst r l ∈ l) ∧
      (oldestFirst r l).created_at ≤ r.created_at ∧
      ∀ q ∈ l, (oldestFirst r l).created_at ≤ q.created_at := by
  induction l with
  | nil => intro r; exact ⟨Or.inl rfl, le_refl _, by simp⟩
  | cons x t ih =>
    intro r
    by_cases hlt : x.created_at < r.created_at
    · obtain ⟨h1, h2, h3⟩ := ih x
      have hred : oldestFirst r (x :: t) = oldestFirst x t := by
        rw [oldestFirst, if_pos hlt]
      refine ⟨?_, ?_, ?_⟩
      · rcases h1 with h | h
        · exact Or.inr (by rw [hred, h]; exact List.mem_cons_self x t)
        · exact Or.inr (by rw [hred]; exact List.mem_cons_of_mem x h)
      · rw [hred]; exact le_trans h2 (le_of_lt hlt)
      · intro q hq
        rcases List.mem_cons.mp hq with rfl | hq
        · rw [hred]; exact h2
        · rw [hred]; exact h3 q hq
    · obtain ⟨h1, h2, h3⟩ := ih r
      have hred : oldestFirst r (x :: t) = oldestFirst r t := by
        rw [oldestFirst, if_neg hlt]
      refine ⟨?_, ?_, ?_⟩
      · rcases h1 with h | h
        · exact Or.inl (by rw [hred, h])
        · exact Or.inr (by rw [hred]; exact List.mem_cons_of_mem x h)
      · rw [hred]; exact h2
      · intro q hq
        rcases List.mem_cons.mp hq with rfl | hq
        · rw [hred]; exact le_trans h2 (le_of_not_lt hlt)
        · rw [hred]; exact h3 q hq

/-- A row returned by `selectOldestQueued` is a queued row of the table
with minimal `created_at` among queued rows. -/
theorem selectOldestQueued_spec (db : List JobRow) (j : JobRow)
    (h : selectOldestQueued db = some j) :
    j ∈ db ∧ j.status = "queued" ∧
      ∀ q ∈ db, q.status = "queued" → j.created_at ≤ q.created_at := by
  unfold selectOldestQueued at h
  cases hf : db.filter fun r => r.status = "queued" with
  | nil => rw [hf] at h; exact absurd h (by simp)
  | cons r t =>
    rw [hf] at h
    simp only [Option.some.injEq] at h
    obtain ⟨h1, h2, h3⟩ := oldestFirst_spec t r
    have hjf : j ∈ db.filter fun r => r.status = "queued" := by
      rw [hf]
      rcases h1 with he | he
      · rw [← h, he]; exact List.mem_cons_self r t
      · rw [← h]; exact List.mem_cons_of_mem r he
    rw [List.mem_filter] at hjf
    refine ⟨hjf.1, by simpa using hjf.2, ?_⟩
    intro q hq hqs
    have hqf : q ∈ db.filter fun r => r.status = "queued" :=
      List.mem_filter.mpr ⟨hq, by simpa using hqs⟩
    rw [hf] at hqf
    rcases List.mem_cons.mp hqf with rfl | hqf
    · rw [← h]; exact h2
    · rw [← h]; exact h3 q hqf

/-! ## C1 — `queued→running` only via the guarded compare-and-set -/

/-- C1: a job goes from `queued` to `running` only through `claim_next`'s
guarded update. (a) If the selected oldest queued job is no longer
`queued` in the snapshot the guarded update runs against, the update
affects zero rows and `claim_next` returns the table unchanged with no
job — it neither raises nor returns a claimed row. (b) Any returned job
is the guarded update applied to a still-`queued` row matching the
selected job, which is the oldest queued row of the select snapshot, and
comes back with status `running`. (c) None of the other queue operations
(`enqueue`, `complete`, `fail`, `recover_stale_jobs`) ever produces a
`running` row that was not already `running`. -/
theorem queued_to_running_only_via_claim (selectDb updateDb : List JobRow)
    (wid now : String) :
    (∀ job, selectOldestQueued selectDb = some job →
        (∀ r ∈ updateDb, r.id = job.id → ¬ r.status = "queued") →
        claim_next selectDb updateDb wid now = (updateDb, none)) ∧
    (∀ db' ret, claim_next selectDb updateDb wid now = (db', some ret) →
        ∃ job pre, selectOldestQueued selectDb = some job ∧
          job ∈ selectDb ∧ job.status = "queued" ∧
          (∀ q ∈ selectDb, q.status = "queued" → job.created_at ≤ q.created_at) ∧
          pre ∈ updateDb ∧ pre.id = job.id ∧ pre.status = "queued" ∧
          ret = claimedRow pre job.attempts wid now ∧ ret.status = "running") ∧
    (∀ cid nid ncr row, row ∈ (enqueue updateDb cid now nid ncr).1 →
        row.status = "running" →
        ∃ r₀ ∈ updateDb, r₀.id = row.id ∧ r₀.status = "running") ∧
    (∀ jid row, row ∈ complete updateDb jid now →
        row.status = "running" →
        ∃ r₀ ∈ updateDb, r₀.id = row.id ∧ r₀.status = "running") ∧
    (∀ jid err ma row, row ∈ (fail updateDb jid err ma now).1 →
        row.status = "running" →
        ∃ r₀ ∈ updateDb, r₀.id = row.id ∧ r₀.status = "running") ∧
    (∀ camps row, row ∈ (recover_stale_jobs updateDb camps now).1 →
        row.status = "running" →
        ∃ r₀ ∈ updateDb, r₀.id = row.id ∧ r₀.status = "running") := by
  have hfilterNil : ∀ (job : JobRow),
      (∀ r ∈ updateDb, r.id = job.id → ¬ r.status = "queued") →
      (updateDb.filter fun r => r.id = job.id ∧ r.status = "queued") = [] := by
    intro job hng
    rw [List.filter_eq_nil_iff]
    intro r hr
    simp only [decide_eq_true_eq, not_and]
    intro hid
    exact hng r hr hid
  refine ⟨?_, ?_, ?_, ?_, ?_, ?_⟩
  · -- (a) zero affected rows → table unchanged, no job returned
    intro job hsel hng
    have hnil := hfilterNil job hng
    have hmapid : (updateDb.map fun r =>
        if r.id = job.id ∧ r.status = "queued" then claimedRow r job.attempts wid now
        else r) = updateDb := by
      have : ∀ r ∈ updateDb, (if r.id = job.id ∧ r.status = "queued" then
          claimedRow r job.attempts wid now else r) = r := by
        intro r hr
        rw [if_neg]
        intro ⟨hid, hq⟩
        exact hng r hr hid hq
      rw [List.map_congr_left this]
      simp
    simp only [claim_next, hsel, hnil, hmapid, List.map_nil]
  · -- (b) a returned row is the guarded update of a queued row
    intro db' ret h
    cases hsel : selectOldestQueued selectDb with
    | none =>
      simp only [claim_next, hsel] at h
      have h2 := congrArg Prod.snd h
      simp at h2
    | some job =>
      obtain ⟨hmem, hq, hmin⟩ := selectOldestQueued_spec selectDb job hsel
      cases hf : updateDb.filter fun r => r.id = job.id ∧ r.status = "queued" with
      | nil =>
        simp only [claim_next, hsel, hf, List.map_nil] at h
        have h2 := congrArg Prod.snd h
        simp at h2
      | cons pre rest =>
        simp only [claim_next, hsel, hf, List.map_cons, Prod.mk.injEq,
          Option.some.injEq] at h
        have hpre : pre ∈ updateDb ∧ pre.id = job.id ∧ pre.status = "queued" := by
          have : pre ∈ updateDb.filter fun r => r.id = job.id ∧ r.status = "queued" := by
            rw [hf]; exact List.mem_cons_self pre rest
          rw [List.mem_filter] at this
          refine ⟨this.1, ?_⟩
          have := this.2
          simpa using this
        exact ⟨job, pre, rfl, hmem, hq, hmin, hpre.1, hpre.2.1, hpre.2.2,
          h.2.symm, by rw [← h.2]; rfl⟩
  · -- (c) enqueue never creates a running row
    intro cid nid ncr row hrow hrun
    unfold enqueue at hrow
    by_cases hex : updateDb.any fun r => r.campaign_id = cid
    · rw [if_pos hex] at hrow
      simp only [List.mem_map] at hrow
      obtain ⟨r₀, hr₀, heq⟩ := hrow
      by_cases hc : r₀.campaign_id = cid
      · rw [if_pos hc] at heq
        rw [← heq] at hrun
        exact absurd (show ("queued" : String) = "running" from hrun) (by decide)
      · rw [if_neg hc] at heq
        exact ⟨r₀, hr₀, by rw [heq], by rw [heq]; exact hrun⟩
    · rw [if_neg hex] at hrow
      rcases List.mem_append.mp hrow with hmem | hmem
      · exact ⟨row, hmem, rfl, hrun⟩
      · simp only [List.mem_singleton] at hmem
        rw [hmem] at hrun
        exact absurd (show ("queued" : String) = "running" from hrun) (by decide)
  · -- (c) complete never creates a running row
    intro jid row hrow hrun
    unfold complete at hrow
    simp only [List.mem_map] at hrow
    obtain ⟨r₀, hr₀, heq⟩ := hrow
    by_cases hc : r₀.id = jid
    · rw [if_pos hc] at heq
      rw [← heq] at hrun
      exact absurd (show ("completed" : String) = "running" from hrun) (by decide)
    · rw [if_neg hc] at heq
      exact ⟨r₀, hr₀, by rw [heq], by rw [heq]; exact hrun⟩
  · -- (c) fail never creates a running row
    intro jid err ma row hrow hrun
    unfold fail at hrow
    cases hh : (updateDb.filter fun r => r.id = jid).head? with
    | none =>
      rw [hh] at hrow
      exact ⟨row, hrow, rfl, hrun⟩
    | some row0 =>
      rw [hh] at hrow
      simp only [List.mem_map] at hrow
      obtain ⟨r₀, hr₀, heq⟩ := hrow
      by_cases hc : r₀.id = jid
      · rw [if_pos hc] at heq
        rw [← heq] at hrun
        simp only at hrun
        by_cases hatt : row0.attempts < row0.max_attempts.getD ma
        · rw [if_pos hatt] at hrun
          exact absurd (show ("queued" : String) = "running" from hrun) (by decide)
        · rw [if_neg hatt] at hrun
          exact absurd (show ("failed" : String) = "running" from hrun) (by decide)
      · rw [if_neg hc] at heq
        exact ⟨r₀, hr₀, by rw [heq], by rw [heq]; exact hrun⟩
  · -- (c) recover_stale_jobs never creates a running row
    intro camps row hrow hrun
    have hone : ∀ jobs camps1 job row1, row1 ∈ (recoverOne jobs camps1 job now).1 →
        row1.status = "running" →
        ∃ r₀ ∈ jobs, r₀.id = row1.id ∧ r₀.status = "running" := by
      intro jobs camps1 job row1 h1 h1run
      unfold recoverOne at h1
      simp only [List.mem_map] at h1
      obtain ⟨r₀, hr₀, heq⟩ := h1
      by_cases hc : r₀.id = job.id
      · rw [if_pos hc] at heq
        rw [← heq] at h1run
        simp only at h1run
        by_cases hatt : job.attempts < job.max_attempts.getD 3
        · rw [if_pos hatt] at h1run
          exact absurd (show ("queued" : String) = "running" from h1run) (by decide)
        · rw [if_neg hatt] at h1run
          exact absurd (show ("failed" : String) = "running" from h1run) (by decide)
      · rw [if_neg hc] at heq
        exact ⟨r₀, hr₀, by rw [heq], by rw [heq]; exact h1run⟩
    have hfold : ∀ (l : List JobRow) (jobs : List JobRow) (camps1 : List CampaignRow)
        (row1 : JobRow),
        row1 ∈ (l.foldl (fun acc job => recoverOne acc.1 acc.2 job now)
          (jobs, camps1)).1 →
        row1.status = "running" →
        ∃ r₀ ∈ jobs, r₀.id = row1.id ∧ r₀.status = "running" := by
      intro l
      induction l with
      | nil => intro jobs camps1 row1 h1 h1run; exact ⟨row1, h1, rfl, h1run⟩
      | cons j t ih =>
        intro jobs camps1 row1 h1 h1run
        rw [List.foldl_cons] at h1
        obtain ⟨r₁, hr₁, hid₁, hrun₁⟩ :=
          ih (recoverOne jobs camps1 j now).1 (recoverOne jobs camps1 j now).2 row1
            h1 h1run
        obtain ⟨r₀, hr₀, hid₀, hrun₀⟩ := hone jobs camps1 j r₁ hr₁ hrun₁
        exact ⟨r₀, hr₀, by rw [hid₀, hid₁], hrun₀⟩
    unfold recover_stale_jobs at hrow
    exact hfold _ updateDb camps row hrow hrun

/-- Witness for C1: a one-row race — the select snapshot sees job `j1`
queued, but by update time its status is `running`; `claim_next` returns
no job and leaves the table unchanged. -/
theorem queued_to_running_only_via_claim_witness :
    claim_next
      [{ id := "j1", campaign_id := "c1", status := "queued" }]
      [{ id := "j1", campaign_id := "c1", status := "running" }] "w1" "t1"
      = ([{ id := "j1", campaign_id := "c1", status := "running" }], none) := by
  have h := (queued_to_running_only_via_claim
    [{ id := "j1", campaign_id := "c1", status := "queued" }]
    [{ id := "j1", campaign_id := "c1", status := "running" }] "w1" "t1").1
  exact h { id := "j1", campaign_id := "c1", status := "queued" } (by decide) (by decide)

/-! ## C5 — step failures, `fail()` retry, and the campaign status -/

/-- Fixture for C5: one running job on its first attempt (`attempts = 1 <
max_attempts = 3`), so `fail` will re-queue it for retry. -/
def c5jobs : List JobRow :=
  [{ id := "j1", campaign_id := "c1", status := "running", locked_by := some "w1",
     locked_at := some "t1", attempts := 1, max_attempts := some 3, created_at := 0 }]

/-- Fixture for C5: the owning campaign, currently running. -/
def c5camps : List CampaignRow :=
  [{ id := "c1", status := "running", agent_state := "negotiation" }]

/-- Counterexample to C5 as stated: on a step failure with attempts
remaining, `fail` re-queues the job (`status = "queued"`, so the attempt
will be retried), yet the worker's failure path has already marked the
campaign's externally visible status `failed` — not only when the job
gives up after `max_attempts`. -/
theorem worker_marks_failed_on_retried_attempt :
    ((workerHandleFailure c5jobs c5camps "j1" "c1" "boom" "t2").1.map
        fun r => r.status) = ["queued"] ∧
    ((workerHandleFailure c5jobs c5camps "j1" "c1" "boom" "t2").2.map
        fun cr => cr.status) = ["failed"] := by
  decide

/-- C5 (amended): a step failure is propagated to `fail()`, which
re-queues the job while `attempts < max_attempts` and marks it `failed`
once attempts are exhausted, in both cases recording the error truncated
to 500 characters; but the worker marks the campaign's externally visible
status `failed` on every failed attempt (with the error truncated to 200
characters in `agent_state`), including attempts that will be retried —
not only when the job gives up. -/
theorem worker_failure_path_spec (jobs : List JobRow) (camps : List CampaignRow)
    (jid cid err now : String) (row : JobRow)
    (hrow : (jobs.filter fun r => r.id = jid).head? = some row) :
    (row.attempts < row.max_attempts.getD 3 →
      ∀ r ∈ (workerHandleFailure jobs camps jid cid err now).1, r.id = jid →
        r.status = "queued" ∧ r.last_error = some (err.take 500)) ∧
    (¬ row.attempts < row.max_attempts.getD 3 →
      ∀ r ∈ (workerHandleFailure jobs camps jid cid err now).1, r.id = jid →
        r.status = "failed" ∧ r.last_error = some (err.take 500)) ∧
    (∀ cr ∈ (workerHandleFailure jobs camps jid cid err now).2, cr.id = cid →
      cr.status = "failed" ∧ cr.agent_state = "error: " ++ err.take 200) := by
  have hjobs : (workerHandleFailure jobs camps jid cid err now).1
      = jobs.map fun x =>
          if x.id = jid then
            { x with
              status := if row.attempts < row.max_attempts.getD 3 then "queued"
                        else "failed",
              last_error := some (err.take 500),
              locked_by := none, locked_at := none, updated_at := now }
          else x := by
    unfold workerHandleFailure fail
    rw [hrow]
  have hcamps : (workerHandleFailure jobs camps jid cid err now).2
      = update_campaign camps cid "failed" ("error: " ++ err.take 200) := rfl
  refine ⟨?_, ?_, ?_⟩
  · intro hatt r hr hid
    rw [hjobs] at hr
    simp only [List.mem_map] at hr
    obtain ⟨x, hx, heq⟩ := hr
    by_cases hc : x.id = jid
    · rw [if_pos hc, if_pos hatt] at heq
      rw [← heq]
      exact ⟨rfl, rfl⟩
    · rw [if_neg hc] at heq
      exact absurd (heq ▸ hid) hc
  · intro hatt r hr hid
    rw [hjobs] at hr
    simp only [List.mem_map] at hr
    obtain ⟨x, hx, heq⟩ := hr
    by_cases hc : x.id = jid
    · rw [if_pos hc, if_neg hatt] at heq
      rw [← heq]
      exact ⟨rfl, rfl⟩
    · rw [if_neg hc] at heq
      exact absurd (heq ▸ hid) hc
  · intro cr hcr hid
    rw [hcamps] at hcr
    unfold update_campaign at hcr
    simp only [List.mem_map] at hcr
    obtain ⟨x, hx, heq⟩ := hcr
    by_cases hc : x.id = cid
    · rw [if_pos hc] at heq
      rw [← heq]
      exact ⟨rfl, rfl⟩
    · rw [if_neg hc] at heq
      exact absurd (heq ▸ hid) hc

/-- Witness for the amended C5 at the fixture: the re-queued job row and
the failed campaign row. -/
theorem worker_failure_path_spec_witness :
    ({ id := "j1", campaign_id := "c1", status := "queued", locked_by := none,
       locked_at := none, attempts := 1, max_attempts := some 3,
       last_error := some ("boom".take 500), created_at := 0,
       updated_at := "t2" } : JobRow).status = "queued" ∧
    ({ id := "c1", status := "failed",
       agent_state := "error: " ++ "boom".take 200 } : CampaignRow).status
      = "failed" := by
  have h := worker_failure_path_spec c5jobs c5camps "j1" "c1" "boom" "t2"
    { id := "j1", campaign_id := "c1", status := "running", locked_by := some "w1",
      locked_at := some "t1", attempts := 1, max_attempts := some 3, created_at := 0 }
    (by decide)
  have hj : (workerHandleFailure c5jobs c5camps "j1" "c1" "boom" "t2").1
      = [{ id := "j1", campaign_id := "c1", status := "queued", locked_by := none,
           locked_at := none, attempts := 1, max_attempts := some 3,
           last_error := some ("boom".take 500), created_at := 0,
           updated_at := "t2" }] := by
    unfold workerHandleFailure fail c5jobs
    simp
  have hc : (workerHandleFailure c5jobs c5camps "j1" "c1" "boom" "t2").2
      = [{ id := "c1", status := "failed",
           agent_state := "error: " ++ "boom".take 200 }] := by
    unfold workerHandleFailure update_campaign c5camps
    simp
  refine ⟨(h.1 (by decide) _ ?_ rfl).1, (h.2.2 _ ?_ rfl).1⟩
  · rw [hj]
    exact List.mem_singleton_self _
  · rw [hc]
    exact List.mem_singleton_self _

/-! ## Helper lemmas on the engagement store -/

/-- Replacing an existing key in the association list makes lookups of
that key return the new value. -/
theorem lookup_map_replace (l : List ((String × String) × EngRaw))
    (k : String × String) (v : EngRaw) (hex : ∃ p ∈ l, p.1 = k) :
    (l.map fun p => if p.1 = k then (k, v) else p).lookup k = some v := by
  induction l with
  | nil =>
    obtain ⟨p, hp, _⟩ := hex
    exact absurd hp (List.not_mem_nil p)
  | cons q t ih =>
    by_cases hq : q.1 = k
    · have hproj : (if q.1 = k then (k, v) else q) = (k, v) := if_pos hq
      calc ((q :: t).map fun p => if p.1 = k then (k, v) else p).lookup k
          = ((if q.1 = k then (k, v) else q)
              :: t.map fun p => if p.1 = k then (k, v) else p).lookup k := rfl
        _ = ((k, v) :: t.map fun p => if p.1 = k then (k, v) else p).lookup k := by
              rw [hproj]
        _ = some v := by
              rw [List.lookup, beq_self_eq_true]
    · have hex2 : ∃ p ∈ t, p.1 = k := by
        obtain ⟨p, hp, hpk⟩ := hex
        rcases List.mem_cons.mp hp with rfl | hp
        · exact absurd hpk hq
        · exact ⟨p, hp, hpk⟩
      have hbeq : (k == q.1) = false := beq_eq_false_iff_ne.mpr (Ne.symm hq)
      have hproj : (if q.1 = k then (k, v) else q) = q := if_neg hq
      calc ((q :: t).map fun p => if p.1 = k then (k, v) else p).lookup k
          = ((if q.1 = k then (k, v) else q)
              :: t.map fun p => if p.1 = k then (k, v) else p).lookup k := rfl
        _ = (q :: t.map fun p => if p.1 = k then (k, v) else p).lookup k := by
              rw [hproj]
        _ = some v := by
              rw [List.lookup]
              rw [hbeq]
              exact ih hex2

/-- Looking up a key absent from every entry of the prefix skips it. -/
theorem lookup_append_no_key (l : List ((String × String) × EngRaw))
    (rest : List ((String × String) × EngRaw)) (k : String × String)
    (hno : ∀ p ∈ l, ¬ p.1 = k) :
    (l ++ rest).lookup k = rest.lookup k := by
  induction l with
  | nil => rfl
  | cons q t ih =>
    have hbeq : (k == q.1) = false :=
      beq_eq_false_iff_ne.mpr (Ne.symm (hno q (List.mem_cons_self q t)))
    rw [List.cons_append, List.lookup, hbeq]
    exact ih fun p hp => hno p (List.mem_cons_of_mem q hp)

/-- After `setEngagement`, looking up the written key returns the written
value (Python dict assignment semantics). -/
theorem setEngagement_lookup (st : List ((String × String) × EngRaw))
    (k : String × String) (v : EngRaw) :
    (setEngagement st k v).lookup k = some v := by
  unfold setEngagement
  by_cases hex : st.any fun p => p.1 = k
  · rw [if_pos hex]
    rw [List.any_eq_true] at hex
    obtain ⟨p, hp, hpk⟩ := hex
    exact lookup_map_replace st k v ⟨p, hp, by simpa using hpk⟩
  · rw [if_neg hex]
    rw [List.any_eq_true] at hex
    push_neg at hex
    have hno : ∀ p ∈ st, ¬ p.1 = k := by
      intro p hp
      have := hex p hp
      simpa using this
    rw [lookup_append_no_key st [(k, v)] k hno]
    simp [List.lookup]

/-- A routing failure returns before `_save_engagements`, so the store
comes back unchanged. -/
theorem ingest_fail_store_unchanged (store : RouterStore) (body : String)
    (mid fe ts : Option String) (now : String) (r : RouterStore) (res : IngestResult)
    (h : ingest_response store body mid fe ts now = some (r, res))
    (hf : res.success = false) : r = store := by
  unfold ingest_response at h
  split at h
  · simp only [applyReply] at h
    split at h
    · exact absurd h (by simp)
    · simp only [Option.some.injEq, Prod.mk.injEq] at h
      rw [← h.2] at hf
      exact absurd (show true = false from hf) (by decide)
  · simp only [Option.some.injEq, Prod.mk.injEq] at h
    exact h.1.symm

/-- When the message id is truthy and maps to a complete entry, the
resolution phase returns that entry's pair (the email fallback is not
consulted). -/
theorem resolveIds_mapping (store : RouterStore) (mid camp cr : String)
    (fe : Option String)
    (hmap : store.message_mapping.lookup mid
      = some { campaign_id := some camp, creator_id := some cr })
    (hmid : mid ≠ "") (hcamp : camp ≠ "") :
    resolveIds store (some mid) fe = (some camp, some cr) := by
  unfold resolveIds
  simp [pyTruthy, hmid, hmap, hcamp]

/-! ## C4 — replies append history, but the status is forced to responded -/

/-- Fixture for C4: one known outreach message id mapping to
`(c1, cr1)` and an engagement for `(c1, cr1)` already negotiating. -/
def c4store : RouterStore :=
  { message_mapping := [("m1", { campaign_id := some "c1", creator_id := some "cr1" })],
    sent_files := [],
    engagements := [(("c1", "cr1"),
      { status := some "negotiating",
        message_history := [⟨"brand", "hi", "t0"⟩] })] }

/-- Counterexample to C4 as stated: a correlated reply for an engagement
whose stored status is `negotiating` is applied with status `responded` —
the status moves backward, both in the returned engagement and in the
persisted store. -/
theorem ingest_moves_status_backward :
    ((c4store.engagements.lookup ("c1", "cr1")).map fun raw => raw.status)
      = some (some "negotiating") ∧
    ((ingest_response c4store "hello" (some "m1") none (some "2025") "NOW").map
        fun p => (p.2.success, p.2.engagement.map fun e => e.status))
      = some (true, some .RESPONDED) ∧
    ((ingest_response c4store "hello" (some "m1") none (some "2025") "NOW").map
        fun p => (p.1.engagements.lookup ("c1", "cr1")).map fun raw => raw.status)
      = some (some (some "responded")) := by
  refine ⟨rfl, ?_, ?_⟩ <;> decide

/-- C4 (amended): applying a correlated reply appends the creator message
to the engagement's message history and sets `response_timestamp`; the
status, however, is set to `responded` unconditionally — on a first reply
this advances `contacted → responded`, but an engagement already in
`negotiating`, `agreed` or `declined` is also moved (backward) to
`responded` rather than keeping its status. -/
theorem ingest_reply_appends_and_forces_responded (store : RouterStore)
    (body : String) (mid camp cr : String) (fe ts : Option String) (now : String)
    (raw : EngRaw) (st0 : EngagementStatus)
    (hmap : store.message_mapping.lookup mid
      = some { campaign_id := some camp, creator_id := some cr })
    (hmid : mid ≠ "") (hcamp : camp ≠ "") (hcr : cr ≠ "")
    (hraw : store.engagements.lookup (camp, cr) = some raw)
    (hst0 : engagementStatusOfString (raw.status.getD "responded") = some st0) :
    ∃ store1 res, ingest_response store body (some mid) fe ts now
        = some (store1, res) ∧
      res.success = true ∧
      (res.engagement.map fun e => e.message_history)
        = some (raw.message_history
            ++ [⟨"creator", body, (pyTruthy ts).getD now⟩]) ∧
      (res.engagement.map fun e => e.status) = some .RESPONDED ∧
      (res.engagement.map fun e => e.response_timestamp)
        = some (some ((pyTruthy ts).getD now)) ∧
      ((store1.engagements.lookup (camp, cr)).map fun r2 => r2.status)
        = some (some "responded") := by
  have hres := resolveIds_mapping store mid camp cr fe hmap hmid hcamp
  have hkey : ingest_response store body (some mid) fe ts now
      = applyReply store camp cr body ((pyTruthy ts).getD now) := by
    unfold ingest_response
    rw [hres]
    simp [pyTruthy, hcamp, hcr]
  rw [hkey]
  simp only [applyReply, hraw, Option.getD_some, hst0]
  refine ⟨_, _, rfl, rfl, rfl, rfl, rfl, ?_⟩
  rw [setEngagement_lookup]
  rfl

/-- Witness for the amended C4 at the fixture: the negotiating engagement
receives the appended message and comes back `responded`. -/
theorem ingest_reply_appends_and_forces_responded_witness :
    ∃ store1 res, ingest_response c4store "hello" (some "m1") none (some "2025") "NOW"
        = some (store1, res) ∧
      res.success = true ∧
      (res.engagement.map fun e => e.message_history)
        = some ([⟨"brand", "hi", "t0"⟩]
            ++ [⟨"creator", "hello", (pyTruthy (some "2025")).getD "NOW"⟩]) ∧
      (res.engagement.map fun e => e.status) = some .RESPONDED ∧
      (res.engagement.map fun e => e.response_timestamp)
        = some (some ((pyTruthy (some "2025")).getD "NOW")) ∧
      ((store1.engagements.lookup ("c1", "cr1")).map fun r2 => r2.status)
        = some (some "responded") :=
  ingest_reply_appends_and_forces_responded c4store "hello" "m1" "c1" "cr1"
    none (some "2025") "NOW"
    { status := some "negotiating", message_history := [⟨"brand", "hi", "t0"⟩] }
    .NEGOTIATING rfl (by decide) (by decide) (by decide) rfl rfl

/-! ## C10 — a reply with no prior engagement creates one -/

/-- C10: a correlated reply for a `(campaign, creator)` pair with no
existing engagement record succeeds and creates a fresh engagement with
status `responded`, a message history holding exactly the one appended
creator message, and the reply timestamp as `response_timestamp`; the
record is persisted under that key. -/
theorem ingest_creates_engagement (store : RouterStore)
    (body : String) (mid camp cr : String) (fe ts : Option String) (now : String)
    (hmap : store.message_mapping.lookup mid
      = some { campaign_id := some camp, creator_id := some cr })
    (hmid : mid ≠ "") (hcamp : camp ≠ "") (hcr : cr ≠ "")
    (hnone : store.engagements.lookup (camp, cr) = none) :
    ∃ store1 res, ingest_response store body (some mid) fe ts now
        = some (store1, res) ∧
      res.success = true ∧
      res.campaign_id = some camp ∧ res.creator_id = some cr ∧
      res.engagement = some
        { creator_id := cr, status := .RESPONDED, latest_proposal := none,
          terms := none,
          message_history := [⟨"creator", body, (pyTruthy ts).getD now⟩],
          response_timestamp := some ((pyTruthy ts).getD now), notes := none } ∧
      store1.engagements.lookup (camp, cr) = some
        (CreatorEngagement.toRaw
          { creator_id := cr, status := .RESPONDED, latest_proposal := none,
            terms := none,
            message_history := [⟨"creator", body, (pyTruthy ts).getD now⟩],
            response_timestamp := some ((pyTruthy ts).getD now), notes := none }) := by
  have hres := resolveIds_mapping store mid camp cr fe hmap hmid hcamp
  have hkey : ingest_response store body (some mid) fe ts now
      = applyReply store camp cr body ((pyTruthy ts).getD now) := by
    unfold ingest_response
    rw [hres]
    simp [pyTruthy, hcamp, hcr]
  rw [hkey]
  simp only [applyReply, hnone, Option.getD_none]
  refine ⟨_, _, rfl, rfl, rfl, rfl, rfl, ?_⟩
  rw [setEngagement_lookup]
  simp

/-- Witness for C10: a reply correlated to `(c1, cr2)`, which has no
engagement yet, creates one with the single creator message. -/
theorem ingest_creates_engagement_witness :
    ∃ store1 res, ingest_response
        { message_mapping :=
            [("m2", { campaign_id := some "c1", creator_id := some "cr2" })],
          sent_files := [], engagements := [] }
        "count me in" (some "m2") none (some "2025-02-02") "NOW"
        = some (store1, res) ∧
      res.success = true ∧
      res.campaign_id = some "c1" ∧ res.creator_id = some "cr2" ∧
      res.engagement = some
        { creator_id := "cr2", status := .RESPONDED, latest_proposal := none,
          terms := none,
          message_history :=
            [⟨"creator", "count me in", (pyTruthy (some "2025-02-02")).getD "NOW"⟩],
          response_timestamp := some ((pyTruthy (some "2025-02-02")).getD "NOW"),
          notes := none } ∧
      store1.engagements.lookup ("c1", "cr2") = some
        (CreatorEngagement.toRaw
          { creator_id := "cr2", status := .RESPONDED, latest_proposal := none,
            terms := none,
            message_history :=
              [⟨"creator", "count me in", (pyTruthy (some "2025-02-02")).getD "NOW"⟩],
            response_timestamp := some ((pyTruthy (some "2025-02-02")).getD "NOW"),
            notes := none }) :=
  ingest_creates_engagement
    { message_mapping :=
        [("m2", { campaign_id := some "c1", creator_id := some "cr2" })],
      sent_files := [], engagements := [] }
    "count me in" "m2" "c1" "cr2" none (some "2025-02-02") "NOW"
    rfl (by decide) (by decide) (by decide) rfl

/-! ## C2 — dedup key recorded only after success; replays are no-ops -/

/-- C2: for the inbound-reply webhook, (a) on a payload whose dedup key is
not yet recorded, the key is recorded exactly when the event was
successfully applied: on success the post-state is the applied router
store plus the appended key, on a routing failure or an exception nothing
changes; and (b) once the key is recorded, re-delivering the same payload
returns `200` with `duplicate = true` and leaves the state untouched, any
number of times. -/
theorem inbound_webhook_dedup (st : WebhookState) (fe rb mid tsS now : String)
    (hfe : fe ≠ "") (hrb : rb ≠ "") :
    (computeInboundDedupKey fe rb mid ∉ st.processed →
      (∀ r res, ingest_response st.router rb (if mid = "" then none else some mid)
          (some fe) (if tsS = "" then none else some tsS) now = some (r, res) →
        (res.success = true →
          (inbound_email_webhook st fe rb mid tsS now).1
            = { processed := st.processed ++ [computeInboundDedupKey fe rb mid],
                router := r }) ∧
        (res.success = false →
          (inbound_email_webhook st fe rb mid tsS now).1 = st)) ∧
      (ingest_response st.router rb (if mid = "" then none else some mid)
          (some fe) (if tsS = "" then none else some tsS) now = none →
        (inbound_email_webhook st fe rb mid tsS now).1 = st)) ∧
    (computeInboundDedupKey fe rb mid ∈ st.processed →
      inbound_email_webhook st fe rb mid tsS now
        = (st, { status_code := 200, ok := true, duplicate := true }) ∧
      ∀ n, inboundIter n st fe rb mid tsS now = st) := by
  have hval : ¬ (fe = "" ∨ rb = "") := not_or.mpr ⟨hfe, hrb⟩
  constructor
  · intro hkey
    constructor
    · intro r res hi
      constructor
      · intro hsucc
        unfold inbound_email_webhook
        rw [if_neg hval, if_neg hkey, hi]
        simp [hsucc]
      · intro hfail
        have hr : r = st.router :=
          ingest_fail_store_unchanged st.router rb _ _ _ now r res hi hfail
        unfold inbound_email_webhook
        rw [if_neg hval, if_neg hkey, hi]
        simp [hfail, hr]
    · intro hi
      unfold inbound_email_webhook
      rw [if_neg hval, if_neg hkey, hi]
  · intro hkey
    have hstep : inbound_email_webhook st fe rb mid tsS now
        = (st, { status_code := 200, ok := true, duplicate := true }) := by
      unfold inbound_email_webhook
      rw [if_neg hval, if_pos hkey]
    refine ⟨hstep, ?_⟩
    intro n
    induction n with
    | zero => rfl
    | succ m ih =>
      show inboundIter m (inbound_email_webhook st fe rb mid tsS now).1
        fe rb mid tsS now = st
      rw [hstep]
      exact ih

/-- Witness for C2 at a concrete recorded key: re-delivery is a pure
duplicate acknowledgement, and three re-deliveries leave the state fixed. -/
theorem inbound_webhook_dedup_witness :
    inbound_email_webhook { processed := ["msgid:m1"], router := {} }
        "a@b.com" "hello" "m1" "" "NOW"
      = ({ processed := ["msgid:m1"], router := {} },
         { status_code := 200, ok := true, duplicate := true }) ∧
    inboundIter 3 { processed := ["msgid:m1"], router := {} }
        "a@b.com" "hello" "m1" "" "NOW"
      = { processed := ["msgid:m1"], router := {} } := by
  have h := (inbound_webhook_dedup { processed := ["msgid:m1"], router := {} }
    "a@b.com" "hello" "m1" "" "NOW" (by decide) (by decide)).2 (by decide)
  exact ⟨h.1, h.2 3⟩

/-! ## C9 — correlation misses: acknowledged by one endpoint, 404 by the other -/

/-- Counterexample to C9 as stated: `creator_response_webhook`
(`approvals.py` lines 102-120) also ingests creator replies, and on a
reply that passes validation (non-empty body) but cannot be correlated it
raises a 404 `HTTPException` — not a 2xx acknowledgement. -/
theorem creator_response_404_on_unrouted :
    (creator_response_webhook {} (some "hello there") none (some "x@y.com")
        none "NOW").2
      = { status_code := 404,
          detail :=
            some "Could not resolve campaign/creator from message_id or from_email" } ∧
    ¬ (200 ≤ (creator_response_webhook {} (some "hello there") none
        (some "x@y.com") none "NOW").2.status_code ∧
       (creator_response_webhook {} (some "hello there") none
        (some "x@y.com") none "NOW").2.status_code ≤ 299) := by
  constructor <;> decide

/-- C9 (amended): an inbound reply that passes validation but cannot be
correlated is acknowledged with `200`, `ok = true`, marked unrouted and
carrying the recorded reason by the `/webhooks/inbound` endpoint; the
`/webhooks/creator-response` endpoint, however, answers the same
situation with a 404 error carrying the router's error detail. -/
theorem unrouted_reply_two_endpoints (st : WebhookState) (store : RouterStore)
    (fe rb mid tsS now : String) (text2 : String)
    (mid2 fe2 ts2 : Option String)
    (hfe : fe ≠ "") (hrb : rb ≠ "")
    (hkey : computeInboundDedupKey fe rb mid ∉ st.processed)
    (r : RouterStore) (res : IngestResult)
    (hi : ingest_response st.router rb (if mid = "" then none else some mid)
      (some fe) (if tsS = "" then none else some tsS) now = some (r, res))
    (hfail : res.success = false)
    (ht2 : text2 ≠ "")
    (r2 : RouterStore) (res2 : IngestResult)
    (hi2 : ingest_response store text2 mid2 fe2 ts2 now = some (r2, res2))
    (hfail2 : res2.success = false) :
    (inbound_email_webhook st fe rb mid tsS now).2
      = { status_code := 200, ok := true, routed := some false,
          reason := res.error } ∧
    (creator_response_webhook store (some text2) mid2 fe2 ts2 now).2
      = { status_code := 404, detail := some (res2.error.getD "Not found") } := by
  constructor
  · unfold inbound_email_webhook
    rw [if_neg (not_or.mpr ⟨hfe, hrb⟩), if_neg hkey, hi]
    simp [hfail]
  · unfold creator_response_webhook
    rw [Option.getD_some, if_neg ht2, hi2]
    simp [hfail2]

/-- Witness for the amended C9: a reply from an unknown sender against an
empty store — acknowledged as unrouted by the inbound webhook, rejected
with 404 by the creator-response webhook. -/
theorem unrouted_reply_two_endpoints_witness :
    (inbound_email_webhook { processed := [], router := {} }
        "x@y.com" "hello there" "" "" "NOW").2
      = { status_code := 200, ok := true, routed := some false,
          reason :=
            some "Could not resolve campaign/creator from message_id or from_email" } ∧
    (creator_response_webhook {} (some "hello there") none (some "x@y.com")
        none "NOW").2
      = { status_code := 404,
          detail :=
            some "Could not resolve campaign/creator from message_id or from_email" } := by
  have h := unrouted_reply_two_endpoints { processed := [], router := {} } {}
    "x@y.com" "hello there" "" "" "NOW" "hello there" none (some "x@y.com") none
    (by decide) (by decide) (by decide) {}
    { success := false,
      error := some "Could not resolve campaign/creator from message_id or from_email" }
    (by decide) rfl (by decide) {}
    { success := false,
      error := some "Could not resolve campaign/creator from message_id or from_email" }
    (by decide) rfl
  exact h

end Hudey
